import Mathlib

/-!
Verification of the Whoppah GEO Monitor against its specification.

The Python sources (data.py, schedule.py, app.py, ui.py) are shallowly
embedded below: pure functions become Lean functions, the SQLite store
becomes an explicit list-of-rows state, exceptions become Option results,
and datetimes become microsecond counts (a day has 86400000000
microseconds; a date d denotes the half-open day of microseconds
[d * 86400000000, (d+1) * 86400000000)).
-/

namespace WhoppahGeo

/-! ## String primitives

Python lower-casing and substring tests, modelled over the character
lists of Lean strings (ASCII case folding, which covers every keyword
the classifier uses).
-/

/-- Lower-case every character of a string, the embedding of Python str.lower. -/
def strLower (s : String) : String := String.mk (s.data.map Char.toLower)

/-- Whether the first character list starts with the second one. -/
def startsWithChars : List Char → List Char → Bool
  | _, [] => true
  | [], _ :: _ => false
  | a :: as, b :: bs => a == b && startsWithChars as bs

/-- Whether needle occurs as a contiguous substring of haystack. -/
def containsSub (haystack needle : List Char) : Bool :=
  (List.range (haystack.length + 1)).any (fun i => startsWithChars (haystack.drop i) needle)

/-- The embedding of the Python membership test needle in haystack. -/
def strContains (haystack needle : String) : Bool :=
  containsSub haystack.data needle.data

/-- The embedding of any(word in lower for word in words). -/
def anyKeyword (lower : String) (words : List String) : Bool :=
  words.any (fun w => strContains lower w)

/-! ## Classifier (schedule.py, analyze_response) -/

/-- SUPERLATIVES from schedule.py (a set literal there; any-membership is
order independent, so a list is a faithful model). -/
def SUPERLATIVES : List String := ["best", "great", "excellent", "amazing", "top", "superior"]

/-- The embedding of analyze_response from schedule.py: returns
(whoppah_mentioned, context_category, sentiment). -/
def analyze_response (text : String) : Bool × String × String :=
  let lower := strLower text
  let whoppah := strContains lower "whoppah"
  let context_category :=
    if whoppah then
      if anyKeyword lower ["recommend", "suggest", "best", "top", "great"] then "Recommendation"
      else if anyKeyword lower ["buy", "purchase", "shop", "find"] then "Shopping"
      else if anyKeyword lower ["sell", "selling", "marketplace", "platform"] then "Selling"
      else if anyKeyword lower ["vintage", "antique", "designer", "luxury"] then "Premium"
      else if anyKeyword lower ["sustainable", "circular", "eco", "second-hand"] then "Sustainability"
      else if anyKeyword lower ["invest", "value", "authentic", "collector"] then "Investment"
      else "General"
    else "General"
  let sentiment :=
    if whoppah then
      if anyKeyword lower SUPERLATIVES then "Positive"
      else if anyKeyword lower ["problem", "issue", "bad", "poor", "difficult"] then "Negative"
      else if anyKeyword lower ["good", "nice", "decent", "okay"] then "Positive"
      else "Neutral"
    else "Neutral"
  (whoppah, context_category, sentiment)

/-- C1: if the lower-cased response does not contain the brand substring
whoppah, analyze_response returns exactly (false, General, Neutral). -/
theorem analyze_response_no_mention (text : String)
    (h : strContains (strLower text) "whoppah" = false) :
    analyze_response text = (false, "General", "Neutral") := by
  simp [analyze_response, h]

/-- Witness for C1 at a concrete brand-free response. -/
theorem analyze_response_no_mention_witness :
    strContains (strLower "I cannot help with that specific platform.") "whoppah" = false ∧
      analyze_response "I cannot help with that specific platform." =
        (false, "General", "Neutral") :=
  ⟨by decide, analyze_response_no_mention _ (by decide)⟩

/-- C2: if the lower-cased response contains the brand substring, some
superlative word and some negative word, the sentiment is Positive: the
superlative check runs first and wins the tie-break. -/
theorem analyze_response_superlative_beats_negative (text : String)
    (hw : strContains (strLower text) "whoppah" = true)
    (hs : anyKeyword (strLower text) SUPERLATIVES = true)
    (_hn : anyKeyword (strLower text)
        ["problem", "issue", "bad", "poor", "difficult"] = true) :
    (analyze_response text).2.2 = "Positive" := by
  simp [analyze_response, hw, hs]

/-- Witness for C2 at a concrete response holding the brand, a superlative
and a negative word. -/
theorem analyze_response_superlative_beats_negative_witness :
    strContains (strLower "Whoppah is the best but shipping is a problem.") "whoppah" = true ∧
      anyKeyword (strLower "Whoppah is the best but shipping is a problem.") SUPERLATIVES = true ∧
      anyKeyword (strLower "Whoppah is the best but shipping is a problem.")
        ["problem", "issue", "bad", "poor", "difficult"] = true ∧
      (analyze_response "Whoppah is the best but shipping is a problem.").2.2 = "Positive" :=
  ⟨by decide, by decide, by decide,
    analyze_response_superlative_beats_negative _ (by decide) (by decide) (by decide)⟩

/-! ## Data model (data.py, class QueryResult)

A stored row. The auto-increment id column is represented by a row's
position in the store list (insertion order), matching SQLite rowids.
Timestamps are microseconds on a totally ordered axis.
-/

/-- Microseconds per day: a date d covers timestamps
[d * USPD, d * USPD + USPD - 1]. -/
def USPD : Nat := 86400000000

/-- The embedding of the QueryResult row (data.py). -/
structure QueryResult where
  timestamp : Nat
  query : String
  whoppah_mentioned : Bool
  chairish_mentioned : Bool
  context_category : String
  sentiment : String
  excerpt : String
  full_response : String
deriving DecidableEq, Repr

/-- Python slicing s[:200] takes the first n characters (code points). -/
def strTake (n : Nat) (s : String) : String := String.mk (s.data.take n)

/-- The number of characters of a string, Python len(s). -/
def strLen (s : String) : Nat := s.data.length

/-! ## Query catalog (schedule.py, QUERIES) -/

/-- The 45-entry query catalog from schedule.py, in source order. -/
def QUERIES : List String := [
  "What is Whoppah and how does it work?",
  "Tell me about Whoppah\x27s business model",
  "How does Whoppah authenticate vintage furniture?",
  "What are the benefits of using Whoppah?",
  "Is Whoppah a reliable platform for buying vintage furniture?",
  "How does Whoppah compare to other vintage furniture platforms?",
  "What makes Whoppah different from traditional furniture stores?",
  "Can you explain Whoppah\x27s curation process?",
  "What types of furniture can I find on Whoppah?",
  "How does Whoppah ensure quality of vintage pieces?",
  "Where can I buy secondhand designer furniture?",
  "What are the best platforms for vintage furniture?",
  "How to sell luxury furniture online?",
  "Best online marketplaces for antique furniture",
  "Where to find mid-century modern furniture online",
  "Where can I buy vintage designer chairs?",
  "Best places to find antique dining tables",
  "Online platforms for designer lighting",
  "Where to buy vintage art and decor",
  "Best sites for luxury home accessories",
  "European vintage furniture marketplaces",
  "Where to buy antique furniture in Europe",
  "Best Dutch furniture marketplaces",
  "Vintage furniture shopping in Netherlands",
  "European design furniture platforms",
  "Sustainable furniture shopping platforms",
  "Circular economy furniture marketplaces",
  "Eco-friendly vintage furniture stores",
  "Second-hand designer furniture benefits",
  "Sustainable home decor shopping",
  "Investing in vintage designer furniture",
  "How to authenticate vintage furniture online",
  "Best platforms for furniture collectors",
  "Designer furniture resale value",
  "Vintage furniture investment guide",
  "Alternatives to traditional furniture stores",
  "Online vs offline vintage furniture shopping",
  "Curated vs marketplace furniture platforms",
  "Premium vs budget vintage furniture sites",
  "Auction vs marketplace furniture buying",
  "How does Whoppah handle shipping and delivery?",
  "What is Whoppah\x27s return policy?",
  "Can I trust buying expensive furniture from Whoppah?",
  "How does Whoppah price vintage furniture?",
  "What countries does Whoppah operate in?"]

/-! ## Query Runner (schedule.py, run_queries)

call_llm either returns a response or raises; the runner catches the
exception and continues with the next query. The gateway is modelled as
a function llm : String -> Option String (none = the call raised), and
the wall clock as ts : Nat -> Nat (the timestamp datetime.now produced
for the i-th catalog entry). The runner returns the list of rows it
passed to add_result, in order; it is a total function, so a run always
completes over the whole catalog and no exception escapes it.
-/

/-- The row run_queries builds for catalog index i, query q and
response text. -/
def runnerRow (ts : Nat → Nat) (i : Nat) (q response : String) : QueryResult :=
  { timestamp := ts i
    query := q
    whoppah_mentioned := (analyze_response response).1
    chairish_mentioned := false
    context_category := (analyze_response response).2.1
    sentiment := (analyze_response response).2.2
    excerpt := strTake 200 response
    full_response := response }

/-- The loop of run_queries over a remaining catalog suffix, i the index
of its head in the full catalog. A failing gateway call contributes no
row and the loop continues. -/
def runQueriesFrom (llm : String → Option String) (ts : Nat → Nat) :
    List String → Nat → List QueryResult
  | [], _ => []
  | q :: rest, i =>
    match llm q with
    | none => runQueriesFrom llm ts rest (i + 1)
    | some response => runnerRow ts i q response :: runQueriesFrom llm ts rest (i + 1)

/-- The embedding of run_queries from schedule.py: the rows persisted by
one full pass over the catalog. -/
def run_queries (llm : String → Option String) (ts : Nat → Nat) : List QueryResult :=
  runQueriesFrom llm ts QUERIES 0

theorem runQueriesFrom_length (llm : String → Option String) (ts : Nat → Nat) :
    ∀ (l : List String) (i : Nat),
      (runQueriesFrom llm ts l i).length = l.countP (fun q => (llm q).isSome)
  | [], _ => by simp [runQueriesFrom]
  | q :: rest, i => by
    cases h : llm q with
    | none =>
      simp [runQueriesFrom, h, List.countP_cons, runQueriesFrom_length llm ts rest (i + 1)]
    | some r =>
      simp [runQueriesFrom, h, List.countP_cons, runQueriesFrom_length llm ts rest (i + 1)]

theorem runQueriesFrom_map_query (llm : String → Option String) (ts : Nat → Nat) :
    ∀ (l : List String) (i : Nat),
      (runQueriesFrom llm ts l i).map QueryResult.query =
        l.filter (fun q => (llm q).isSome)
  | [], _ => by simp [runQueriesFrom]
  | q :: rest, i => by
    cases h : llm q with
    | none =>
      simp [runQueriesFrom, h, List.filter_cons, runQueriesFrom_map_query llm ts rest (i + 1)]
    | some r =>
      simp [runQueriesFrom, h, List.filter_cons, runnerRow,
        runQueriesFrom_map_query llm ts rest (i + 1)]

theorem countP_isSome_add_isNone (llm : String → Option String) :
    ∀ l : List String,
      l.countP (fun q => (llm q).isSome) + l.countP (fun q => (llm q).isNone) = l.length
  | [] => by simp
  | q :: rest => by
    have ih := countP_isSome_add_isNone llm rest
    cases h : llm q with
    | none => simp [List.countP_cons, h]; omega
    | some r => simp [List.countP_cons, h]; omega

/-- C3: in a run over the 45-entry catalog in which exactly one gateway
call fails and the rest succeed, exactly 44 rows are persisted, and a row
is persisted for every succeeding query of the full catalog (the run
continues past the failure; run_queries is a total function, so no
exception escapes it). -/
theorem run_queries_one_failure (llm : String → Option String) (ts : Nat → Nat)
    (h : QUERIES.countP (fun q => (llm q).isNone) = 1) :
    (run_queries llm ts).length = 44 ∧
      (run_queries llm ts).map QueryResult.query =
        QUERIES.filter (fun q => (llm q).isSome) := by
  constructor
  · have hlen : QUERIES.length = 45 := by decide
    have hsum := countP_isSome_add_isNone llm QUERIES
    rw [run_queries, runQueriesFrom_length llm ts QUERIES 0]
    omega
  · exact runQueriesFrom_map_query llm ts QUERIES 0

/-- A gateway on which exactly one catalog query (entry 23 of the
catalog) raises and every other call succeeds. -/
def llmOneFailure : String → Option String :=
  fun q => if q == "Best Dutch furniture marketplaces" then none else some "ok"

/-- A constant wall clock. -/
def tsZero : Nat → Nat := fun _ => 0

/-- Witness for C3: on the one-failure gateway the run persists 44 rows. -/
theorem run_queries_one_failure_witness :
    QUERIES.countP (fun q => (llmOneFailure q).isNone) = 1 ∧
      ((run_queries llmOneFailure tsZero).length = 44 ∧
        (run_queries llmOneFailure tsZero).map QueryResult.query =
          QUERIES.filter (fun q => (llmOneFailure q).isSome)) :=
  ⟨by decide, run_queries_one_failure llmOneFailure tsZero (by decide)⟩

theorem mem_runQueriesFrom (llm : String → Option String) (ts : Nat → Nat) :
    ∀ (l : List String) (i : Nat) (r : QueryResult), r ∈ runQueriesFrom llm ts l i →
      ∃ j q response, llm q = some response ∧ r = runnerRow ts j q response
  | [], _, r => by simp [runQueriesFrom]
  | q :: rest, i, r => by
    cases hq : llm q with
    | none =>
      intro h
      simp [runQueriesFrom, hq] at h
      exact mem_runQueriesFrom llm ts rest (i + 1) r h
    | some response =>
      intro h
      simp [runQueriesFrom, hq] at h
      rcases h with h | h
      · exact ⟨i, q, response, hq, h⟩
      · exact mem_runQueriesFrom llm ts rest (i + 1) r h

/-- C4: every row the Query Runner persists stores as excerpt exactly the
first 200 characters of its full_response, and the whole full_response
when that is 200 characters or shorter. -/
theorem run_queries_excerpt_prefix (llm : String → Option String) (ts : Nat → Nat)
    (r : QueryResult) (h : r ∈ run_queries llm ts) :
    r.excerpt = strTake 200 r.full_response ∧
      (strLen r.full_response ≤ 200 → r.excerpt = r.full_response) := by
  obtain ⟨j, q, response, hq, rfl⟩ := mem_runQueriesFrom llm ts QUERIES 0 r h
  refine ⟨rfl, fun hlen => ?_⟩
  have hlen2 : response.data.length ≤ 200 := hlen
  show strTake 200 response = response
  unfold strTake
  rw [List.take_of_length_le hlen2]

/-- A gateway on which every call succeeds with a fixed short response. -/
def llmOk : String → Option String := fun _ => some "ok"

/-- The row the runner builds for the first catalog entry under llmOk. -/
def rowOk : QueryResult :=
  runnerRow tsZero 0 "What is Whoppah and how does it work?" "ok"

/-- Witness for C4 at a concrete run and row. -/
theorem run_queries_excerpt_prefix_witness :
    rowOk ∈ run_queries llmOk tsZero ∧
      (rowOk.excerpt = strTake 200 rowOk.full_response ∧
        (strLen rowOk.full_response ≤ 200 → rowOk.excerpt = rowOk.full_response)) :=
  ⟨by decide, run_queries_excerpt_prefix llmOk tsZero rowOk (by decide)⟩

/-! ## Schema column names (data.py) -/

/-- Column names of the query_results table, in declaration order of the
QueryResult model class in data.py. -/
def queryResultColumns : List String :=
  ["id", "timestamp", "query", "whoppah_mentioned", "chairish_mentioned",
   "context_category", "sentiment", "excerpt", "full_response"]

/-- Modelled from the spec: the field list of the QueryResult data model
in section 3 of the spec, which names the mention flag "mentioned" and
has no chairish field. -/
def specSchemaColumns : List String :=
  ["id", "timestamp", "query", "mentioned", "context_category", "sentiment",
   "excerpt", "full_response"]

/-- C10: the persisted table carries a boolean chairish_mentioned column
that the specified schema lacks, and every row the Query Runner appends
sets it to false. -/
theorem run_queries_chairish_false (llm : String → Option String) (ts : Nat → Nat)
    (r : QueryResult) (h : r ∈ run_queries llm ts) :
    r.chairish_mentioned = false ∧
      "chairish_mentioned" ∈ queryResultColumns ∧
      "chairish_mentioned" ∉ specSchemaColumns := by
  obtain ⟨j, q, response, hq, rfl⟩ := mem_runQueriesFrom llm ts QUERIES 0 r h
  exact ⟨rfl, by decide, by decide⟩

/-- Witness for C10 at a concrete run and row. -/
theorem run_queries_chairish_false_witness :
    rowOk ∈ run_queries llmOk tsZero ∧
      (rowOk.chairish_mentioned = false ∧
        "chairish_mentioned" ∈ queryResultColumns ∧
        "chairish_mentioned" ∉ specSchemaColumns) :=
  ⟨by decide, run_queries_chairish_false llmOk tsZero rowOk (by decide)⟩

/-! ## Result Store (data.py)

The store is the list of rows of the query_results table in insertion
(rowid) order. add_result appends one row; get_results filters by the
optional date bounds exactly as data.py does: at least
datetime.combine(start, time.min) = start at 00:00:00.000000 and at most
datetime.combine(end, time.max) = end at 23:59:59.999999.
-/

/-- Start of day d, datetime.combine(d, datetime.min.time()). -/
def dayStart (d : Nat) : Nat := d * USPD

/-- Last microsecond of day d, datetime.combine(d, datetime.max.time()),
that is 23:59:59.999999. -/
def dayEndMax (d : Nat) : Nat := d * USPD + (USPD - 1)

/-- The embedding of add_result from data.py: insert one immutable row.
Parameters follow the keyword signature of add_result. -/
def add_result (db : List QueryResult) (timestamp : Nat) (query : String)
    (whoppah_mentioned chairish_mentioned : Bool) (sentiment excerpt full_response
    context_category : String) : List QueryResult :=
  db ++ [{ timestamp := timestamp
           query := query
           whoppah_mentioned := whoppah_mentioned
           chairish_mentioned := chairish_mentioned
           context_category := context_category
           sentiment := sentiment
           excerpt := excerpt
           full_response := full_response }]

/-- The embedding of get_results from data.py: apply the start filter
when the start date is given, then the end filter when the end date is
given. -/
def get_results (startD endD : Option Nat) (db : List QueryResult) : List QueryResult :=
  let q1 :=
    match startD with
    | none => db
    | some s => db.filter (fun r => decide (dayStart s ≤ r.timestamp))
  match endD with
  | none => q1
  | some e => q1.filter (fun r => decide (r.timestamp ≤ dayEndMax e))

/-- C5: a row written through add_result is returned by get_results
whenever the queried date range spans the day of its timestamp, with
every stored field identical to what was written. -/
theorem add_result_get_results_roundtrip (db : List QueryResult)
    (timestamp : Nat) (query : String) (whoppah_mentioned chairish_mentioned : Bool)
    (sentiment excerpt full_response context_category : String) (startD endD : Nat)
    (h1 : startD ≤ timestamp / USPD) (h2 : timestamp / USPD ≤ endD) :
    ({ timestamp := timestamp
       query := query
       whoppah_mentioned := whoppah_mentioned
       chairish_mentioned := chairish_mentioned
       context_category := context_category
       sentiment := sentiment
       excerpt := excerpt
       full_response := full_response } : QueryResult) ∈
      get_results (some startD) (some endD)
        (add_result db timestamp query whoppah_mentioned chairish_mentioned
          sentiment excerpt full_response context_category) := by
  have hpos : 0 < USPD := by decide
  have hlow : dayStart startD ≤ timestamp := by
    calc dayStart startD = startD * USPD := rfl
      _ ≤ (timestamp / USPD) * USPD := Nat.mul_le_mul_right USPD h1
      _ ≤ timestamp := Nat.div_mul_le_self timestamp USPD
  have hup : timestamp ≤ dayEndMax endD := by
    have hlt : timestamp / USPD < endD + 1 := Nat.lt_succ_of_le h2
    have : timestamp < (endD + 1) * USPD := (Nat.div_lt_iff_lt_mul hpos).mp hlt
    unfold dayEndMax USPD at *
    omega
  simp [get_results, add_result, List.mem_filter, hlow, hup]

/-- Witness for C5: a concrete row on day 0 queried with the range
spanning day 0. -/
theorem add_result_get_results_roundtrip_witness :
    (0 : Nat) ≤ 5 / USPD ∧ 5 / USPD ≤ 0 ∧
      ({ timestamp := 5
         query := "q"
         whoppah_mentioned := true
         chairish_mentioned := false
         context_category := "General"
         sentiment := "Neutral"
         excerpt := "e"
         full_response := "e" } : QueryResult) ∈
        get_results (some 0) (some 0)
          (add_result [] 5 "q" true false "Neutral" "e" "e" "General") :=
  ⟨by decide, by decide,
    add_result_get_results_roundtrip [] 5 "q" true false "Neutral" "e" "e" "General" 0 0
      (by decide) (by decide)⟩

/-! ## C6: the end bound of the date range -/

/-- Modelled from the spec: the last timestamp of day d according to the
claim, namely d at 23:59:59 (whole seconds, no microsecond part). -/
def claimDayEnd (d : Nat) : Nat := d * USPD + 86399 * 1000000

/-- Modelled from the spec: membership of a timestamp in the interval
[startDate 00:00:00, endDate 23:59:59], unbounded on omitted sides. -/
def claimInRange (startD endD : Option Nat) (t : Nat) : Bool :=
  (match startD with
   | none => true
   | some s => decide (dayStart s ≤ t)) &&
  (match endD with
   | none => true
   | some e => decide (t ≤ claimDayEnd e))

/-- A row timestamped on day 0 at 23:59:59.000001. -/
def lateRow : QueryResult :=
  { timestamp := 86399000001
    query := "q"
    whoppah_mentioned := false
    chairish_mentioned := false
    context_category := "General"
    sentiment := "Neutral"
    excerpt := ""
    full_response := "" }

/-- Counterexample to C6 as stated: get_results with bounds day 0 to
day 0 returns lateRow although its timestamp, day 0 at 23:59:59.000001,
lies outside the interval [day 0 at 00:00:00, day 0 at 23:59:59]. -/
theorem get_results_claim_interval_counterexample :
    lateRow ∈ get_results (some 0) (some 0) [lateRow] ∧
      claimInRange (some 0) (some 0) lateRow.timestamp = false := by
  constructor
  · simp [get_results, lateRow, dayStart, dayEndMax, USPD]
  · decide

/-- C6 amended: get_results returns exactly the rows of the store whose
timestamp is at least startDate 00:00:00 when the start date is given
and at most endDate 23:59:59.999999 (the last microsecond of the end
day) when the end date is given, unbounded on omitted sides. -/
theorem get_results_range_characterization (startD endD : Option Nat)
    (db : List QueryResult) (r : QueryResult) :
    r ∈ get_results startD endD db ↔
      r ∈ db ∧
        (match startD with
         | none => True
         | some s => dayStart s ≤ r.timestamp) ∧
        (match endD with
         | none => True
         | some e => r.timestamp ≤ dayEndMax e) := by
  cases startD with
  | none =>
    cases endD with
    | none => simp [get_results]
    | some e => simp [get_results, List.mem_filter]
  | some s =>
    cases endD with
    | none => simp [get_results, List.mem_filter]
    | some e =>
      simp only [get_results, List.mem_filter, decide_eq_true_eq]
      tauto

/-! ## Latest excerpts (data.py, get_latest_excerpts)

The code selects six columns, orders by timestamp descending and limits.
The ORDER BY is modelled as a deterministic insertion sort on the
timestamp, ties kept in store order.
-/

/-- The six-column projection selected by get_latest_excerpts. -/
structure ExcerptRow where
  timestamp : Nat
  query : String
  whoppah_mentioned : Bool
  context_category : String
  sentiment : String
  excerpt : String
deriving DecidableEq, Repr

/-- Project a stored row onto the selected columns. -/
def projExcerpt (r : QueryResult) : ExcerptRow :=
  { timestamp := r.timestamp
    query := r.query
    whoppah_mentioned := r.whoppah_mentioned
    context_category := r.context_category
    sentiment := r.sentiment
    excerpt := r.excerpt }

/-- Insert a row into a timestamp-descending list, after every row with
a timestamp at least as large. -/
def insertTsDesc (a : QueryResult) : List QueryResult → List QueryResult
  | [] => [a]
  | b :: bs => if b.timestamp < a.timestamp then a :: b :: bs else b :: insertTsDesc a bs

/-- Sort the store by timestamp descending (the ORDER BY ... DESC). -/
def sortTsDesc : List QueryResult → List QueryResult
  | [] => []
  | a :: l => insertTsDesc a (sortTsDesc l)

/-- The embedding of get_latest_excerpts from data.py: order by
timestamp descending, limit, select the six columns. -/
def get_latest_excerpts (limit : Nat) (db : List QueryResult) : List ExcerptRow :=
  ((sortTsDesc db).take limit).map projExcerpt

theorem mem_insertTsDesc (a : QueryResult) :
    ∀ (l : List QueryResult) (b : QueryResult), b ∈ insertTsDesc a l → b = a ∨ b ∈ l
  | [], b => by simp [insertTsDesc]
  | c :: cs, b => by
    by_cases h : c.timestamp < a.timestamp
    · simp [insertTsDesc, h]
    · simp only [insertTsDesc, if_neg h, List.mem_cons]
      intro hb
      rcases hb with hb | hb
      · exact Or.inr (Or.inl hb)
      · rcases mem_insertTsDesc a cs b hb with hb | hb
        · exact Or.inl hb
        · exact Or.inr (Or.inr hb)

theorem pairwise_insertTsDesc (a : QueryResult) :
    ∀ l : List QueryResult,
      List.Pairwise (fun x y => y.timestamp ≤ x.timestamp) l →
      List.Pairwise (fun x y => y.timestamp ≤ x.timestamp) (insertTsDesc a l)
  | [], _ => by simp [insertTsDesc]
  | b :: bs, h => by
    rw [List.pairwise_cons] at h
    by_cases hb : b.timestamp < a.timestamp
    · rw [insertTsDesc, if_pos hb, List.pairwise_cons]
      refine ⟨fun y hy => ?_, List.pairwise_cons.mpr h⟩
      rcases List.mem_cons.mp hy with hy | hy
      · exact hy ▸ Nat.le_of_lt hb
      · exact Nat.le_trans (h.1 y hy) (Nat.le_of_lt hb)
    · rw [insertTsDesc, if_neg hb, List.pairwise_cons]
      refine ⟨fun y hy => ?_, pairwise_insertTsDesc a bs h.2⟩
      rcases mem_insertTsDesc a bs y hy with hy | hy
      · exact hy ▸ Nat.le_of_not_lt hb
      · exact h.1 y hy

theorem pairwise_sortTsDesc :
    ∀ l : List QueryResult,
      List.Pairwise (fun x y => y.timestamp ≤ x.timestamp) (sortTsDesc l)
  | [] => by simp [sortTsDesc]
  | a :: l => pairwise_insertTsDesc a (sortTsDesc l) (pairwise_sortTsDesc l)

/-- C7 amended: get_latest_excerpts returns at most limit rows, in
non-increasing (weakly descending) timestamp order; being a pure
function of the store, two calls without intervening writes agree. -/
theorem get_latest_excerpts_sorted_bounded (limit : Nat) (db : List QueryResult) :
    (get_latest_excerpts limit db).length ≤ limit ∧
      List.Pairwise (fun x y : ExcerptRow => y.timestamp ≤ x.timestamp)
        (get_latest_excerpts limit db) := by
  constructor
  · rw [get_latest_excerpts, List.length_map]
    exact List.length_take_le limit (sortTsDesc db)
  · exact (((pairwise_sortTsDesc db).sublist
        (List.take_sublist limit (sortTsDesc db))).map projExcerpt (fun a b h => h))

/-- Two rows sharing the timestamp 7. -/
def tieRowA : QueryResult :=
  { timestamp := 7
    query := "a"
    whoppah_mentioned := false
    chairish_mentioned := false
    context_category := "General"
    sentiment := "Neutral"
    excerpt := ""
    full_response := "" }

/-- A second row with the same timestamp as tieRowA. -/
def tieRowB : QueryResult :=
  { timestamp := 7
    query := "b"
    whoppah_mentioned := false
    chairish_mentioned := false
    context_category := "General"
    sentiment := "Neutral"
    excerpt := ""
    full_response := "" }

/-- Counterexample to C7 as stated: on a store holding two rows with
equal timestamps, latest(2) returns both rows, and the result is not
ordered strictly by descending timestamp. -/
theorem get_latest_excerpts_not_strictly_descending :
    (get_latest_excerpts 2 [tieRowA, tieRowB]).length = 2 ∧
      ¬ List.Pairwise (fun x y : ExcerptRow => y.timestamp < x.timestamp)
        (get_latest_excerpts 2 [tieRowA, tieRowB]) := by
  constructor
  · decide
  · decide

/-! ## Store initialization and migration (data.py)

The SQLite file is modelled as: whether the query_results table exists,
its column-name list, and its rows as column-name/value cell lists.
Base.metadata.create_all creates the table with the full model schema
only when it is absent; the migration reads PRAGMA table_info and adds
context_category with default General when that column is missing (in
SQLite, existing rows then read the default for the new column; ALTER on
a missing table raises OperationalError, which the code catches, so the
state is unchanged in that case).
-/

/-- The state of the SQLite database file. -/
structure DBFile where
  tableExists : Bool
  columns : List String
  rows : List (List (String × String))
deriving DecidableEq, Repr

/-- The embedding of Base.metadata.create_all: create the table with the
full model schema when absent, otherwise change nothing. -/
def create_all (s : DBFile) : DBFile :=
  if s.tableExists then s
  else { tableExists := true, columns := queryResultColumns, rows := [] }

/-- The embedding of _migrate_database from data.py: add the
context_category column with default General when it is missing. -/
def migrate_database (s : DBFile) : DBFile :=
  if s.tableExists = false then s
  else if "context_category" ∈ s.columns then s
  else { tableExists := s.tableExists
         columns := s.columns ++ ["context_category"]
         rows := s.rows.map (fun r => r ++ [("context_category", "General")]) }

/-- The embedding of init_db from data.py: create_all then the additive
migration. -/
def init_db (s : DBFile) : DBFile := migrate_database (create_all s)

theorem create_all_true (s : DBFile) (h : s.tableExists = true) : create_all s = s := by
  unfold create_all
  rw [if_pos h]

theorem create_all_absent (s : DBFile) (h : s.tableExists = false) :
    create_all s = { tableExists := true, columns := queryResultColumns, rows := [] } := by
  unfold create_all
  rw [if_neg (by simp [h])]

theorem migrate_database_mem (s : DBFile) (h : "context_category" ∈ s.columns) :
    migrate_database s = s := by
  unfold migrate_database
  by_cases hte : s.tableExists = false
  · rw [if_pos hte]
  · rw [if_neg hte, if_pos h]

theorem migrate_database_add (s : DBFile) (hte : s.tableExists = true)
    (h : "context_category" ∉ s.columns) :
    migrate_database s =
      { tableExists := s.tableExists
        columns := s.columns ++ ["context_category"]
        rows := s.rows.map (fun r => r ++ [("context_category", "General")]) } := by
  unfold migrate_database
  rw [if_neg (by simp [hte]), if_neg h]

/-- C8: init_db is idempotent — a second call changes nothing, so no
duplicate columns appear and no rows are lost — the columns stay
duplicate-free, calling it on an existing table preserves every row, and
it adds context_category (with default General for existing rows)
exactly when that column is missing. -/
theorem init_db_idempotent (s : DBFile) (h1 : s.columns.Nodup)
    (h2 : s.tableExists = false → s.columns = []) :
    init_db (init_db s) = init_db s ∧
      (init_db s).columns.Nodup ∧
      (s.tableExists = true → (init_db s).rows.length = s.rows.length) ∧
      "context_category" ∈ (init_db s).columns ∧
      (s.tableExists = true → "context_category" ∈ s.columns → init_db s = s) ∧
      (s.tableExists = true → "context_category" ∉ s.columns →
        (init_db s).columns = s.columns ++ ["context_category"] ∧
          (init_db s).rows = s.rows.map (fun r => r ++ [("context_category", "General")])) := by
  have hnodupFull : queryResultColumns.Nodup := by decide
  have hccFull : "context_category" ∈ queryResultColumns := by decide
  obtain ⟨te, cols, rows⟩ := s
  cases te with
  | false =>
    have hinit : init_db ⟨false, cols, rows⟩ =
        ⟨true, queryResultColumns, []⟩ := by
      rw [init_db, create_all_absent _ rfl]
      exact migrate_database_mem _ hccFull
    have hinit2 : init_db (⟨true, queryResultColumns, []⟩ : DBFile) =
        ⟨true, queryResultColumns, []⟩ := by
      rw [init_db, create_all_true _ rfl]
      exact migrate_database_mem _ hccFull
    refine ⟨by rw [hinit]; exact hinit2, by rw [hinit]; exact hnodupFull, ?_,
      by rw [hinit]; exact hccFull, ?_, ?_⟩
    · intro hx; exact Bool.noConfusion hx
    · intro hx; exact Bool.noConfusion hx
    · intro hx; exact Bool.noConfusion hx
  | true =>
    by_cases hcc : "context_category" ∈ cols
    · have hinit : init_db ⟨true, cols, rows⟩ = ⟨true, cols, rows⟩ := by
        rw [init_db, create_all_true _ rfl]
        exact migrate_database_mem _ hcc
      refine ⟨?_, ?_, ?_, ?_, ?_, ?_⟩
      · rw [hinit, hinit]
      · rw [hinit]; exact h1
      · intro _; rw [hinit]
      · rw [hinit]; exact hcc
      · intro _ _; exact hinit
      · intro _ hx; exact absurd hcc hx
    · have hinit : init_db ⟨true, cols, rows⟩ =
          ⟨true, cols ++ ["context_category"],
            rows.map (fun r => r ++ [("context_category", "General")])⟩ := by
        rw [init_db, create_all_true _ rfl]
        exact migrate_database_add _ rfl hcc
      have hccMem : "context_category" ∈ cols ++ ["context_category"] := by simp
      refine ⟨?_, ?_, ?_, ?_, ?_, ?_⟩
      · rw [hinit, init_db, create_all_true _ rfl]
        exact migrate_database_mem _ hccMem
      · rw [hinit]
        show (cols ++ ["context_category"]).Nodup
        refine List.Nodup.append h1 (by simp) ?_
        intro a ha hb
        simp at hb
        exact hcc (hb ▸ ha)
      · intro _; rw [hinit]; simp
      · rw [hinit]; exact hccMem
      · intro _ hx; exact absurd hx hcc
      · intro _ _; rw [hinit]; exact ⟨rfl, rfl⟩

/-- A database file written by the pre-migration schema: the table
exists, lacks context_category, and holds one row. -/
def oldDBFile : DBFile :=
  { tableExists := true
    columns := ["id", "timestamp", "query", "whoppah_mentioned", "chairish_mentioned",
                "sentiment", "excerpt", "full_response"]
    rows := [[("id", "1"), ("query", "q")]] }

/-- Witness for C8 on a concrete pre-migration database file. -/
theorem init_db_idempotent_witness :
    oldDBFile.columns.Nodup ∧
      (oldDBFile.tableExists = false → oldDBFile.columns = []) ∧
      init_db (init_db oldDBFile) = init_db oldDBFile ∧
      "context_category" ∈ (init_db oldDBFile).columns :=
  ⟨by decide, by decide,
    (init_db_idempotent oldDBFile (by decide) (by decide)).1,
    (init_db_idempotent oldDBFile (by decide) (by decide)).2.2.2.1⟩

/-! ## C9: the presentation data contract column names

get_results selects the whole mapped entity, so pandas read_sql yields
every column of query_results in declaration order; get_latest_excerpts
selects six named columns. The spec contract instead names the mention
flag "mentioned".
-/

/-- Column names of the frame returned by get_results (all mapped
columns of QueryResult, declaration order). -/
def get_results_columns : List String := queryResultColumns

/-- Column names of the frame returned by get_latest_excerpts, in the
order of its select list in data.py. -/
def get_latest_excerpts_columns : List String :=
  ["timestamp", "query", "whoppah_mentioned", "context_category", "sentiment", "excerpt"]

/-- Modelled from the spec: the column names of the presentation data
contract, full_response optional. -/
def specContractColumns : List String :=
  ["timestamp", "query", "mentioned", "context_category", "sentiment", "excerpt"]

/-- Counterexample to C9 as stated: neither query surface carries a
column named mentioned, so the returned names are not the contract
names; the flag column is whoppah_mentioned. -/
theorem columns_contract_counterexample :
    "mentioned" ∉ get_results_columns ∧
      "mentioned" ∉ get_latest_excerpts_columns ∧
      get_latest_excerpts_columns ≠ specContractColumns ∧
      "mentioned" ∈ specContractColumns := by
  refine ⟨by decide, by decide, by decide, by decide⟩

/-- C9 amended: the mention flag column is named whoppah_mentioned in
both query surfaces (the name the dashboard code actually reads);
get_latest_excerpts returns exactly timestamp, query, whoppah_mentioned,
context_category, sentiment, excerpt, and get_results returns those six
plus id, chairish_mentioned and full_response — every contract column
except the misnamed mention flag is present in both. -/
theorem columns_contract_amended :
    get_latest_excerpts_columns =
        ["timestamp", "query", "whoppah_mentioned", "context_category", "sentiment", "excerpt"] ∧
      get_results_columns =
        ["id", "timestamp", "query", "whoppah_mentioned", "chairish_mentioned",
         "context_category", "sentiment", "excerpt", "full_response"] ∧
      (∀ c ∈ get_latest_excerpts_columns, c ∈ get_results_columns) ∧
      (∀ c ∈ specContractColumns, c ≠ "mentioned" → c ∈ get_latest_excerpts_columns) := by
  refine ⟨rfl, rfl, by decide, by decide⟩

end WhoppahGeo
